import Mathlib

/-!
Verification development for the e-commerce operations agent repository
(scoring pipeline, action lifecycle engine, and React dashboard frontend).

The repository ships the React/TypeScript dashboard sources and the system
documentation; the Python backend (`api.py`, `pipeline.py` — the three-stage
scoring pipeline, the action request parser and the action lifecycle engine)
is referenced by the documentation and the frontend but its source is not in
the repository.  Definitions for those missing parts are modelled from the
specification and say so in their doc comment; everything else is translated
from the TypeScript sources.

Numbers (prices, stock counts, scores) are JavaScript numbers in the source;
they are embedded as rationals, which is exact for the comparisons and
divisions the claims are about.
-/

namespace ElSem3

/-! ### Data model -/

/-- Risk levels assigned by the Inventory Risk Evaluator
(`CRITICAL`, `WARNING`, `SAFE` in the documentation and frontend). -/
inductive RiskLevel
  | CRITICAL
  | WARNING
  | SAFE
deriving DecidableEq, Repr

/-- Recommended actions of the Strategy Ranker decision table (section 4.3
of the specification; the frontend badge colouring in
`RecommendationsTable.tsx` matches on these names). -/
inductive RecommendedAction
  | REORDER_IMMEDIATELY
  | PLAN_REORDER
  | DISCOUNT_OR_LIQUIDATE
  | PAUSE_ADS_REVIEW_PRICE
  | MONITOR
deriving DecidableEq, Repr

/-- One SKU Fact: the per-item input of a pipeline run (fields from the
`SKURecommendation` interface in `dashboard/src/types`). -/
structure SKUFact where
  sku_id : String
  selling_price : ℚ
  cost_of_goods : ℚ
  current_stock : ℚ
  lead_time_days : ℚ
  sales_velocity_per_day : ℚ
deriving DecidableEq, Repr

/-! ### Inventory Risk Evaluator (claims C2, C3)

Modelled from the spec: the Inventory Sentinel stage of `pipeline.py` is not
in the repository.  Per section 4.2 and the data-model invariant,
`days_of_stock_left = current_stock / sales_velocity_per_day` when the
velocity is positive and is infinite (embedded as `none`) when the velocity
is zero; `risk_level` is `CRITICAL` if `days_of_stock_left ≤ lead_time_days`,
`WARNING` if `days_of_stock_left ≤ lead_time_days * 2`, else `SAFE`. -/

/-- Modelled from the spec: days of stock left for one SKU Fact; `none`
stands for the infinite value used when the sales velocity is zero
(the evaluator never divides by zero). -/
def days_of_stock_left (f : SKUFact) : Option ℚ :=
  if 0 < f.sales_velocity_per_day then
    some (f.current_stock / f.sales_velocity_per_day)
  else
    none

/-- Modelled from the spec: the risk level assigned by the Inventory Risk
Evaluator, first matching threshold wins, both thresholds inclusive;
an infinite `days_of_stock_left` is above every threshold. -/
def risk_level (f : SKUFact) : RiskLevel :=
  match days_of_stock_left f with
  | none => RiskLevel.SAFE
  | some d =>
    if d ≤ f.lead_time_days then RiskLevel.CRITICAL
    else if d ≤ f.lead_time_days * 2 then RiskLevel.WARNING
    else RiskLevel.SAFE

/-! ### Strategy Ranker decision table (claim C1)

Modelled from the spec: the Strategy Supervisor stage of `pipeline.py` is not
in the repository; section 4.3 gives its five-rule action decision table and
the frontend (`getActionBadgeColor` in `RecommendationsTable.tsx`) matches on
the resulting action names. -/

/-- Modelled from the spec: the recommended action of the Strategy Ranker,
as the if-chain of section 4.3 (rules tried in order). -/
def recommended_action (profit_per_unit : ℚ) (risk : RiskLevel) : RecommendedAction :=
  if risk = RiskLevel.CRITICAL ∧ 0 < profit_per_unit then
    RecommendedAction.REORDER_IMMEDIATELY
  else if risk = RiskLevel.WARNING ∧ 0 < profit_per_unit then
    RecommendedAction.PLAN_REORDER
  else if profit_per_unit < 0 ∧ risk = RiskLevel.SAFE then
    RecommendedAction.DISCOUNT_OR_LIQUIDATE
  else if profit_per_unit < 0 ∧ risk ≠ RiskLevel.SAFE then
    RecommendedAction.PAUSE_ADS_REVIEW_PRICE
  else
    RecommendedAction.MONITOR

/-- The five-rule decision table of section 4.3 as data: guard and action of
each rule, in rule order (the `otherwise MONITOR` rule is the default of
`firstSatisfiedRule`). -/
def actionRules (profit_per_unit : ℚ) (risk : RiskLevel) : List (Bool × RecommendedAction) :=
  [ (decide (risk = RiskLevel.CRITICAL) && decide (0 < profit_per_unit),
      RecommendedAction.REORDER_IMMEDIATELY),
    (decide (risk = RiskLevel.WARNING) && decide (0 < profit_per_unit),
      RecommendedAction.PLAN_REORDER),
    (decide (profit_per_unit < 0) && decide (risk = RiskLevel.SAFE),
      RecommendedAction.DISCOUNT_OR_LIQUIDATE),
    (decide (profit_per_unit < 0) && decide (risk ≠ RiskLevel.SAFE),
      RecommendedAction.PAUSE_ADS_REVIEW_PRICE) ]

/-- First-satisfied-rule semantics of a decision table: the action of the
first rule whose guard holds, the given default when none does. -/
def firstSatisfiedRule (dflt : RecommendedAction) :
    List (Bool × RecommendedAction) → RecommendedAction
  | [] => dflt
  | (g, a) :: rest => if g then a else firstSatisfiedRule dflt rest

/-! ### Action Lifecycle Engine (claims C4, C5)

Modelled from the spec: the Action Lifecycle Engine of `api.py` is not in the
repository (the frontend `UserActionsPanel.tsx` only reads its records).
Section 4.6 gives the state machine `PENDING → EXECUTING → COMPLETED|FAILED`
or `PENDING → DUPLICATE` and the deduplication contract on the key
`(sku_id, action_kind, quantity|price)` within the dedup window. -/

/-- Lifecycle status of an Action Record (the `status` field of `UserAction`
in `UserActionsPanel.tsx`). -/
inductive ActionStatus
  | PENDING
  | EXECUTING
  | COMPLETED
  | FAILED
  | DUPLICATE
deriving DecidableEq, Repr, Fintype

/-- Terminal statuses: COMPLETED, FAILED and DUPLICATE. -/
def ActionStatus.isTerminal : ActionStatus → Bool
  | ActionStatus.COMPLETED => true
  | ActionStatus.FAILED => true
  | ActionStatus.DUPLICATE => true
  | _ => false

/-- The events the Action Lifecycle Engine applies to a record's status. -/
inductive LifecycleEvent
  | startExecution
  | executionSucceeded
  | executionFailed
  | markDuplicate
deriving DecidableEq, Repr, Fintype

/-- Modelled from the spec: one status update of the Action Lifecycle Engine.
Only the transitions of the section 4.6 state machine change the status;
every other event leaves the record unchanged (in particular terminal states
are never left, and records are updated, never deleted). -/
def ActionStatus.step : ActionStatus → LifecycleEvent → ActionStatus
  | ActionStatus.PENDING, LifecycleEvent.startExecution => ActionStatus.EXECUTING
  | ActionStatus.PENDING, LifecycleEvent.markDuplicate => ActionStatus.DUPLICATE
  | ActionStatus.EXECUTING, LifecycleEvent.executionSucceeded => ActionStatus.COMPLETED
  | ActionStatus.EXECUTING, LifecycleEvent.executionFailed => ActionStatus.FAILED
  | s, _ => s

/-- The edges allowed by the section 4.6 state machine. -/
def allowedTransition : ActionStatus → ActionStatus → Bool
  | ActionStatus.PENDING, ActionStatus.EXECUTING => true
  | ActionStatus.PENDING, ActionStatus.DUPLICATE => true
  | ActionStatus.EXECUTING, ActionStatus.COMPLETED => true
  | ActionStatus.EXECUTING, ActionStatus.FAILED => true
  | _, _ => false

/-- Action kinds accepted by the engine (the parsed email commands plus the
dashboard's RESTOCK / PRICE_CHANGE / DISMISS submissions). -/
inductive ActionKind
  | RESTOCK
  | CHANGE_PRICE
  | PAUSE_ADS
  | APPROVE_RESTOCK
  | REJECT
  | DISMISS
deriving DecidableEq, Repr

/-- An Action Request as stored by the engine. -/
structure ActionRequest where
  sku_id : String
  action_kind : ActionKind
  quantity : Option ℚ
  price : Option ℚ
deriving DecidableEq, Repr

/-- The deduplication key `(sku_id, action_kind, quantity|price)`. -/
def dedupKey (r : ActionRequest) : String × ActionKind × Option ℚ × Option ℚ :=
  (r.sku_id, r.action_kind, r.quantity, r.price)

/-- An Action Record: an Action Request plus its lifecycle status. -/
structure ActionRecord where
  request : ActionRequest
  status : ActionStatus
deriving DecidableEq, Repr

/-- The engine's state: the append-only record list, the dedup keys seen
inside the current dedup window, and how many writes the external store has
received. -/
structure EngineState where
  records : List ActionRecord
  seenKeys : List (String × ActionKind × Option ℚ × Option ℚ)
  storeWrites : Nat
deriving DecidableEq, Repr

/-- Modelled from the spec: one synchronous submission to the Action
Lifecycle Engine, all within one dedup window (`seenKeys` holds the keys of
the window).  A request whose dedup key was already seen is recorded as
DUPLICATE and not re-executed; otherwise the engine writes to the external
store once and records COMPLETED or FAILED according to the store's response
`storeOk`. -/
def submitAction (storeOk : Bool) (r : ActionRequest) (s : EngineState) : EngineState :=
  if dedupKey r ∈ s.seenKeys then
    { s with records := s.records ++ [⟨r, ActionStatus.DUPLICATE⟩] }
  else
    { records :=
        s.records ++
          [⟨r, if storeOk then ActionStatus.COMPLETED else ActionStatus.FAILED⟩],
      seenKeys := s.seenKeys ++ [dedupKey r],
      storeWrites := s.storeWrites + 1 }

/-! ### Scoring Pipeline Coordinator (claim C6)

Modelled from the spec: the coordinator in `api.py` is not in the
repository.  Section 4.4 requires single-flight execution: a run requested
while one is executing is rejected with a `PipelineBusy` signal carrying a
machine-readable reason code, never queued, and the published Recommendation
set is untouched. -/

/-- A Recommendation as published by a pipeline run (the fields the ranked
views use). -/
structure Recommendation where
  sku_id : String
  risk_level : RiskLevel
  impact_score : ℚ
  recommended_action : RecommendedAction
deriving DecidableEq, Repr

/-- Result of asking the coordinator to start a run. -/
inductive TriggerResult
  | runStarted
  | pipelineBusy (reasonCode : String)
deriving DecidableEq, Repr

/-- The coordinator's state: whether a run is in flight, and the currently
published Recommendation set. -/
structure CoordinatorState where
  running : Bool
  published : List Recommendation
deriving DecidableEq, Repr

/-- Modelled from the spec: triggering a pipeline run.  While a run is in
flight the trigger is rejected immediately with `pipelineBusy` and a
machine-readable reason code, and the state (in particular the published
set) is returned unchanged; otherwise the run starts. -/
def triggerRun (s : CoordinatorState) : TriggerResult × CoordinatorState :=
  if s.running then
    (TriggerResult.pipelineBusy "PIPELINE_BUSY", s)
  else
    (TriggerResult.runStarted, { s with running := true })

/-! ### Action Request Parser (claim C7)

Modelled from the spec: the free-text command parser behind
`POST /api/n8n/user-action` is not in the repository; the README documents
the five email command patterns and section 4.5 the failure modes.  A
command is a string of underscore-separated tokens; the keyword part is
matched case-insensitively, the SKU must be a nonempty token, and QTY and
PRICE must parse as numbers. -/

/-- Failure modes of the Action Request Parser (section 4.5). -/
inductive ParseFailure
  | UnrecognizedCommand
  | MalformedCommand
deriving DecidableEq, Repr

/-- Splitting a command's characters at underscores, accumulating the
current token reversed (the same tokens `split` on the underscore yields). -/
def splitUnderscoreAux : List Char → List Char → List String
  | [], acc => [String.mk acc.reverse]
  | c :: cs, acc =>
    if c = '_' then String.mk acc.reverse :: splitUnderscoreAux cs []
    else splitUnderscoreAux cs (c :: acc)

/-- The underscore-separated tokens of a command string. -/
def splitUnderscore (s : String) : List String :=
  splitUnderscoreAux s.data []

/-- A token with every character upper-cased, for the case-insensitive
keyword comparison. -/
def upperOf (t : String) : String :=
  String.mk (t.data.map Char.toUpper)

/-- Decimal value of a digit character, `none` on a non-digit. -/
def digitVal (c : Char) : Option Nat :=
  if c.isDigit then some (c.toNat - 48) else none

/-- A numeric token (QTY or PRICE) parsed as a nonnegative decimal number;
`none` when the token is empty or has a non-digit character. -/
def parseNatTok (t : String) : Option Nat :=
  if t.data.isEmpty then none
  else
    t.data.foldl
      (fun acc? c => acc?.bind (fun acc => (digitVal c).map (fun d => acc * 10 + d)))
      (some 0)

/-- Modelled from the spec: which of the five command patterns the
underscore-separated tokens of a command match, with the keyword compared
case-insensitively; yields the action kind, the SKU token and the numeric
token (QTY or PRICE) when the pattern has one. -/
def matchShape : List String → Option (ActionKind × String × Option String)
  | [a, b] =>
    if upperOf a = "REJECT" then some (ActionKind.REJECT, b, none)
    else none
  | [a, b, c] =>
    if upperOf a = "APPROVE" ∧ upperOf b = "RESTOCK" then
      some (ActionKind.APPROVE_RESTOCK, c, none)
    else if upperOf a = "PAUSE" ∧ upperOf b = "ADS" then
      some (ActionKind.PAUSE_ADS, c, none)
    else if upperOf a = "RESTOCK" then
      some (ActionKind.RESTOCK, b, some c)
    else none
  | [a, b, c, d] =>
    if upperOf a = "CHANGE" ∧ upperOf b = "PRICE" then
      some (ActionKind.CHANGE_PRICE, c, some d)
    else none
  | _ => none

/-- Whether the fields of a keyword-matched command parse as their expected
types: the SKU token must be nonempty and the numeric token, when the
pattern has one, must parse as a number. -/
def fieldsOk (sku : String) (numTok : Option String) : Bool :=
  !sku.data.isEmpty &&
    (match numTok with
     | none => true
     | some t => (parseNatTok t).isSome)

/-- The Action Request a successfully parsed command yields: the number goes
to `quantity` for RESTOCK and to `price` for CHANGE_PRICE. -/
def mkParsedRequest (k : ActionKind) (sku : String) (n : Option Nat) : ActionRequest :=
  match k with
  | ActionKind.RESTOCK => ⟨sku, k, n.map (fun m => (m : ℚ)), none⟩
  | ActionKind.CHANGE_PRICE => ⟨sku, k, none, n.map (fun m => (m : ℚ))⟩
  | _ => ⟨sku, k, none, none⟩

/-- Modelled from the spec: the Action Request Parser over a free-text
command string.  `UnrecognizedCommand` when no pattern matches,
`MalformedCommand` when a keyword matches but a field fails to parse as its
expected type. -/
def parseCommand (s : String) : Except ParseFailure ActionRequest :=
  match matchShape (splitUnderscore s) with
  | none => Except.error ParseFailure.UnrecognizedCommand
  | some (k, sku, numTok) =>
    if sku.data.isEmpty then Except.error ParseFailure.MalformedCommand
    else
      match numTok with
      | none => Except.ok (mkParsedRequest k sku none)
      | some t =>
        match parseNatTok t with
        | none => Except.error ParseFailure.MalformedCommand
        | some n => Except.ok (mkParsedRequest k sku (some n))

/-! ### Ranked view of Recommendations (claim C8)

From `RecommendationsTable.tsx`: `sortedRecommendations` copies the
recommendation list and sorts it with a single-key comparator; the default
sort key is `impact_score` with order `desc`, so the comparator is
`bVal - aVal` on the two impact scores.  `Array.prototype.sort` is stable
(ES2019), so the view is, extensionally, the stable sort placing `a` before
`b` exactly when the comparator is ≤ 0, i.e. when `b.impact_score ≤
a.impact_score`; it is embedded as the stable insertion sort with that
relation. -/

/-- The order in which the default ranked view places recommendations:
`a` may stand before `b` exactly when the descending `impact_score`
comparator of `RecommendationsTable.tsx` returns ≤ 0 on `(a, b)`. -/
def impactDescLe (a b : Recommendation) : Prop :=
  b.impact_score ≤ a.impact_score

instance : DecidableRel impactDescLe :=
  fun a b => inferInstanceAs (Decidable (b.impact_score ≤ a.impact_score))

instance : IsTotal Recommendation impactDescLe :=
  ⟨fun a b => le_total b.impact_score a.impact_score⟩

instance : IsTrans Recommendation impactDescLe :=
  ⟨fun _ _ _ hab hbc => le_trans hbc hab⟩

/-- From `RecommendationsTable.tsx`: the rows of the ranked view under the
default sort state (`sortBy` impact_score, `sortOrder` desc), as the stable
sort by the single-key comparator. -/
def sortedRecommendations (recommendations : List Recommendation) : List Recommendation :=
  List.insertionSort impactDescLe recommendations

/-! ### Alerts view: DISMISS and submissions (claims C9, C10) -/

/-- An alert of the needs-attention view (the `Alert` interface of
`dashboard/src/types`, fields the claims use). -/
structure Alert where
  sku_id : String
  product_name : String
  selling_price : ℚ
  current_stock : ℚ
  impact_score : ℚ
deriving DecidableEq, Repr

/-- From `AlertsTab.tsx` `handleDismiss`: after a successful DISMISS call
the alerts state keeps exactly the entries whose `sku_id` differs from the
dismissed one. -/
def dismissAlerts (skuId : String) (alerts : List Alert) : List Alert :=
  alerts.filter (fun a => a.sku_id != skuId)

/-- One audit entry (`sku_id` and the action kind audited). -/
structure AuditEntry where
  sku_id : String
  action_kind : ActionKind
deriving DecidableEq, Repr

/-- The backend state a DISMISS touches: store write count, audit log and
the published recommendations. -/
structure BackendState where
  storeWrites : Nat
  auditLog : List AuditEntry
  recommendations : List Recommendation
deriving DecidableEq, Repr

/-- Modelled from the spec: backend handling of a DISMISS action (the
`/api/alerts/action` handler in `api.py` is not in the repository).  Per
section 4.6 it completes immediately, performs no store write, appends one
audit entry and leaves the published Recommendations untouched. -/
def executeDismiss (skuId : String) (st : BackendState) : ActionStatus × BackendState :=
  (ActionStatus.COMPLETED,
    { st with auditLog := st.auditLog ++ [⟨skuId, ActionKind.DISMISS⟩] })

/-- The two resolution modal types of `AlertsTab.tsx` (`'RESTOCK' | 'PRICE'`). -/
inductive ModalActionType
  | RESTOCK
  | PRICE
deriving DecidableEq, Repr

/-- The request body `api.ts` `executeAction` posts to `/alerts/action`. -/
structure ActionRequestBody where
  sku_id : String
  action_type : String
  value : Option ℚ
  original_value : Option ℚ
deriving DecidableEq, Repr

/-- From `api.ts` `executeAction`: the body is built from the four arguments
as given (absent optional arguments stay absent). -/
def executeActionBody (skuId : String) (actionType : String)
    (value : Option ℚ) (originalValue : Option ℚ) : ActionRequestBody :=
  ⟨skuId, actionType, value, originalValue⟩

/-- From `AlertsTab.tsx` `confirmAction`: the action type string is RESTOCK
or PRICE_CHANGE by the modal type, the entered value is always sent, and
`originalValue` is the alert's selling price exactly for the PRICE modal
(undefined otherwise). -/
def confirmActionBody (alert : Alert) (ty : ModalActionType) (inputValue : ℚ) :
    ActionRequestBody :=
  executeActionBody alert.sku_id
    (match ty with
     | ModalActionType.RESTOCK => "RESTOCK"
     | ModalActionType.PRICE => "PRICE_CHANGE")
    (some inputValue)
    (match ty with
     | ModalActionType.PRICE => some alert.selling_price
     | ModalActionType.RESTOCK => none)

/-- From `AlertsTab.tsx` `handleDismiss`: the DISMISS submission passes no
value and no original value. -/
def dismissActionBody (skuId : String) : ActionRequestBody :=
  executeActionBody skuId "DISMISS" none none

/-! ### Theorems -/

/-- Claim C1: for every scored SKU, the recommended action produced by the
Strategy Ranker equals the first satisfied rule of the five-rule decision
table (CRITICAL ∧ profit > 0 ⇒ REORDER_IMMEDIATELY; WARNING ∧ profit > 0 ⇒
PLAN_REORDER; profit < 0 ∧ SAFE ⇒ DISCOUNT_OR_LIQUIDATE; profit < 0 ∧ ¬SAFE ⇒
PAUSE_ADS_REVIEW_PRICE; otherwise MONITOR). -/
theorem strategy_ranker_first_satisfied_rule
    (profit_per_unit : ℚ) (risk : RiskLevel) :
    recommended_action profit_per_unit risk =
      firstSatisfiedRule RecommendedAction.MONITOR (actionRules profit_per_unit risk) := by
  rcases lt_trichotomy profit_per_unit 0 with hp | hp | hp
  · cases risk <;>
      simp [recommended_action, actionRules, firstSatisfiedRule, hp, lt_asymm hp]
  · subst hp
    cases risk <;>
      simp [recommended_action, actionRules, firstSatisfiedRule, lt_irrefl]
  · cases risk <;>
      simp [recommended_action, actionRules, firstSatisfiedRule, hp, lt_asymm hp]

/-- Claim C2: for every SKU Fact with positive sales velocity,
`days_of_stock_left` is `current_stock / sales_velocity_per_day`, and the
risk level is CRITICAL exactly on `days ≤ lead_time_days` (boundary
included), WARNING exactly on `lead_time_days < days ≤ lead_time_days * 2`
(boundary included), and SAFE otherwise. -/
theorem inventory_risk_boundaries (f : SKUFact)
    (hv : 0 < f.sales_velocity_per_day) :
    days_of_stock_left f = some (f.current_stock / f.sales_velocity_per_day) ∧
    (risk_level f = RiskLevel.CRITICAL ↔
      f.current_stock / f.sales_velocity_per_day ≤ f.lead_time_days) ∧
    (risk_level f = RiskLevel.WARNING ↔
      f.lead_time_days < f.current_stock / f.sales_velocity_per_day ∧
        f.current_stock / f.sales_velocity_per_day ≤ f.lead_time_days * 2) ∧
    (risk_level f = RiskLevel.SAFE ↔
      f.lead_time_days < f.current_stock / f.sales_velocity_per_day ∧
        f.lead_time_days * 2 < f.current_stock / f.sales_velocity_per_day) := by
  have hd : days_of_stock_left f = some (f.current_stock / f.sales_velocity_per_day) := by
    simp [days_of_stock_left, hv]
  have key : risk_level f =
      if f.current_stock / f.sales_velocity_per_day ≤ f.lead_time_days then
        RiskLevel.CRITICAL
      else if f.current_stock / f.sales_velocity_per_day ≤ f.lead_time_days * 2 then
        RiskLevel.WARNING
      else RiskLevel.SAFE := by
    rw [risk_level, hd]
  refine ⟨hd, ?_, ?_, ?_⟩ <;> rw [key]
  · split_ifs with h1 h2 <;> simp [h1]
  · split_ifs with h1 h2
    · exact iff_of_false (by simp) (by rintro ⟨h, _⟩; linarith)
    · exact iff_of_true rfl ⟨not_le.mp h1, h2⟩
    · exact iff_of_false (by simp) (by rintro ⟨_, h⟩; exact h2 h)
  · split_ifs with h1 h2
    · exact iff_of_false (by simp) (by rintro ⟨h, _⟩; linarith)
    · exact iff_of_false (by simp) (by rintro ⟨_, h⟩; linarith)
    · exact iff_of_true rfl ⟨not_le.mp h1, not_le.mp h2⟩

/-- Witness for claim C2 at the boundary `days_of_stock_left = lead_time_days`
(stock 4, velocity 2, lead time 2: two days of stock left is CRITICAL). -/
theorem inventory_risk_boundaries_witness :
    risk_level
      { sku_id := "IPH001", selling_price := 1500, cost_of_goods := 1000,
        current_stock := 4, lead_time_days := 2, sales_velocity_per_day := 2 } =
      RiskLevel.CRITICAL := by
  have h := inventory_risk_boundaries
    { sku_id := "IPH001", selling_price := 1500, cost_of_goods := 1000,
      current_stock := 4, lead_time_days := 2, sales_velocity_per_day := 2 }
    (by norm_num)
  exact h.2.1.mpr (by norm_num)

/-- Claim C3: for every SKU Fact with zero sales velocity the evaluator never
divides: `days_of_stock_left` is the infinite value, and the risk level is
SAFE — never CRITICAL and never WARNING. -/
theorem inventory_zero_velocity_safe (f : SKUFact)
    (hv : f.sales_velocity_per_day = 0) :
    days_of_stock_left f = none ∧
    risk_level f = RiskLevel.SAFE ∧
    risk_level f ≠ RiskLevel.CRITICAL ∧
    risk_level f ≠ RiskLevel.WARNING := by
  have hd : days_of_stock_left f = none := by
    simp [days_of_stock_left, hv]
  refine ⟨hd, ?_, ?_, ?_⟩ <;> simp [risk_level, hd]

/-- Witness for claim C3: a SKU with zero sales velocity is classified SAFE. -/
theorem inventory_zero_velocity_safe_witness :
    risk_level
      { sku_id := "SKU002", selling_price := 100, cost_of_goods := 40,
        current_stock := 0, lead_time_days := 7, sales_velocity_per_day := 0 } =
      RiskLevel.SAFE :=
  (inventory_zero_velocity_safe
    { sku_id := "SKU002", selling_price := 100, cost_of_goods := 40,
      current_stock := 0, lead_time_days := 7, sales_velocity_per_day := 0 }
    rfl).2.1

/-- Claim C4: submitting the same Action Request twice within the dedup
window (identical sku_id, action_kind, and quantity or price) appends exactly
one record that is COMPLETED or FAILED and exactly one record with terminal
status DUPLICATE, and the external store receives exactly one write for the
pair. -/
theorem dedup_idempotence (s : EngineState) (r : ActionRequest) (ok1 ok2 : Bool)
    (h : dedupKey r ∉ s.seenKeys) :
    (submitAction ok2 r (submitAction ok1 r s)).records =
      s.records ++
        [⟨r, if ok1 then ActionStatus.COMPLETED else ActionStatus.FAILED⟩,
         ⟨r, ActionStatus.DUPLICATE⟩] ∧
    (((submitAction ok2 r (submitAction ok1 r s)).records.drop s.records.length).countP
        (fun rec => rec.status == ActionStatus.COMPLETED ||
          rec.status == ActionStatus.FAILED)) = 1 ∧
    (((submitAction ok2 r (submitAction ok1 r s)).records.drop s.records.length).countP
        (fun rec => rec.status == ActionStatus.DUPLICATE)) = 1 ∧
    (submitAction ok2 r (submitAction ok1 r s)).storeWrites = s.storeWrites + 1 := by
  have h1 : submitAction ok1 r s =
      { records :=
          s.records ++
            [⟨r, if ok1 then ActionStatus.COMPLETED else ActionStatus.FAILED⟩],
        seenKeys := s.seenKeys ++ [dedupKey r],
        storeWrites := s.storeWrites + 1 } := by
    simp [submitAction, h]
  have h2 : (submitAction ok2 r (submitAction ok1 r s)) =
      { records :=
          s.records ++
            [⟨r, if ok1 then ActionStatus.COMPLETED else ActionStatus.FAILED⟩,
             ⟨r, ActionStatus.DUPLICATE⟩],
        seenKeys := s.seenKeys ++ [dedupKey r],
        storeWrites := s.storeWrites + 1 } := by
    rw [h1]
    simp [submitAction]
  rw [h2]
  refine ⟨rfl, ?_, ?_, rfl⟩ <;>
    · rw [show s.records ++
          [ActionRecord.mk r (if ok1 then ActionStatus.COMPLETED else ActionStatus.FAILED),
           ActionRecord.mk r ActionStatus.DUPLICATE] =
          s.records ++
            ([ActionRecord.mk r (if ok1 then ActionStatus.COMPLETED else ActionStatus.FAILED),
              ActionRecord.mk r ActionStatus.DUPLICATE]) from rfl,
        List.drop_left]
      cases ok1 <;> simp [List.countP_cons]

/-- Witness for claim C4: a fresh RESTOCK request submitted twice to the
empty engine state yields one COMPLETED record, one DUPLICATE record and one
store write. -/
theorem dedup_idempotence_witness :
    dedupKey ⟨"IPH001", ActionKind.RESTOCK, some 150, none⟩ ∉
      (EngineState.mk [] [] 0).seenKeys ∧
    (submitAction true ⟨"IPH001", ActionKind.RESTOCK, some 150, none⟩
        (submitAction true ⟨"IPH001", ActionKind.RESTOCK, some 150, none⟩
          (EngineState.mk [] [] 0))).records =
      [⟨⟨"IPH001", ActionKind.RESTOCK, some 150, none⟩, ActionStatus.COMPLETED⟩,
       ⟨⟨"IPH001", ActionKind.RESTOCK, some 150, none⟩, ActionStatus.DUPLICATE⟩] ∧
    (submitAction true ⟨"IPH001", ActionKind.RESTOCK, some 150, none⟩
        (submitAction true ⟨"IPH001", ActionKind.RESTOCK, some 150, none⟩
          (EngineState.mk [] [] 0))).storeWrites = 1 := by
  have h := dedup_idempotence (EngineState.mk [] [] 0)
    ⟨"IPH001", ActionKind.RESTOCK, some 150, none⟩ true true (by simp)
  exact ⟨by simp, by simpa using h.1, by simpa using h.2.2.2⟩

/-- Claim C7: the Action Request Parser succeeds exactly on the five
case-insensitive command patterns with well-typed fields: it fails with
UnrecognizedCommand exactly when no pattern's keyword matches, fails with
MalformedCommand exactly when a keyword matches but the SKU / QTY / PRICE
field does not parse as its expected type, and RESTOCK_IPH001_150 parses to
the Action Request with sku_id IPH001, kind RESTOCK and quantity 150. -/
theorem parser_grammar (s : String) :
    (∀ r : ActionRequest, parseCommand s = Except.ok r →
      (matchShape (splitUnderscore s)).isSome = true) ∧
    (parseCommand s = Except.error ParseFailure.UnrecognizedCommand ↔
      matchShape (splitUnderscore s) = none) ∧
    (∀ k sku numTok, matchShape (splitUnderscore s) = some (k, sku, numTok) →
      (parseCommand s = Except.error ParseFailure.MalformedCommand ↔
        fieldsOk sku numTok = false) ∧
      (fieldsOk sku numTok = true →
        parseCommand s = Except.ok (mkParsedRequest k sku (numTok.bind parseNatTok)))) ∧
    parseCommand "RESTOCK_IPH001_150" =
      Except.ok ⟨"IPH001", ActionKind.RESTOCK, some 150, none⟩ := by
  cases hm : matchShape (splitUnderscore s) with
  | none =>
    refine ⟨?_, by simp [parseCommand, hm], ?_, rfl⟩
    · intro r hr
      simp [parseCommand, hm] at hr
    · intro k sku numTok hmm
      exact absurd hmm (by simp)
  | some x =>
    obtain ⟨k0, sku0, numTok0⟩ := x
    have hps : parseCommand s =
        (if sku0.data.isEmpty then Except.error ParseFailure.MalformedCommand
         else
           match numTok0 with
           | none => Except.ok (mkParsedRequest k0 sku0 none)
           | some t =>
             match parseNatTok t with
             | none => Except.error ParseFailure.MalformedCommand
             | some n => Except.ok (mkParsedRequest k0 sku0 (some n))) := by
      simp only [parseCommand, hm]
    refine ⟨fun r _ => by simp [hm], ?_, ?_, rfl⟩
    · rw [hps]
      cases he : sku0.data.isEmpty with
      | true => simp [hm]
      | false =>
        cases numTok0 with
        | none => simp [hm]
        | some t =>
          cases hn : parseNatTok t with
          | none => simp [hm, hn]
          | some n => simp [hm, hn]
    · intro k sku numTok hmm
      simp only [Option.some.injEq, Prod.mk.injEq] at hmm
      obtain ⟨hk, hsku, hnum⟩ := hmm
      subst hk
      subst hsku
      subst hnum
      rw [hps]
      cases he : sku0.data.isEmpty with
      | true => simp [fieldsOk, he]
      | false =>
        cases numTok0 with
        | none => simp [fieldsOk, he]
        | some t =>
          cases hn : parseNatTok t with
          | none => simp [fieldsOk, he, hn]
          | some n => simp [fieldsOk, he, hn]

/-- Witness for claim C7: the documented scenario RESTOCK_IPH001_150
keyword-matches the RESTOCK pattern, its fields are well typed, and it
parses to the request built from SKU IPH001 and quantity 150. -/
theorem parser_grammar_witness :
    matchShape (splitUnderscore "RESTOCK_IPH001_150") =
      some (ActionKind.RESTOCK, "IPH001", some "150") ∧
    fieldsOk "IPH001" (some "150") = true ∧
    parseCommand "RESTOCK_IPH001_150" =
      Except.ok (mkParsedRequest ActionKind.RESTOCK "IPH001"
        ((some "150").bind parseNatTok)) := by
  refine ⟨rfl, rfl, ?_⟩
  exact ((parser_grammar "RESTOCK_IPH001_150").2.2.1 ActionKind.RESTOCK "IPH001"
    (some "150") rfl).2 rfl

/-- Claim C5: the status of an Action Record only ever moves along the edges
PENDING → EXECUTING → COMPLETED | FAILED or PENDING → DUPLICATE (every
engine update either leaves the status unchanged or follows an allowed
edge), and once a status is terminal (COMPLETED, FAILED or DUPLICATE) no
sequence of further events changes it. -/
theorem action_lifecycle_monotonic (s : ActionStatus) (e : LifecycleEvent) :
    (ActionStatus.step s e = s ∨ allowedTransition s (ActionStatus.step s e) = true) ∧
    (∀ es : List LifecycleEvent, s.isTerminal = true →
      es.foldl ActionStatus.step s = s) := by
  have hstep : ∀ (t : ActionStatus) (e' : LifecycleEvent),
      t.isTerminal = true → ActionStatus.step t e' = t := by decide
  refine ⟨by revert s e; decide, ?_⟩
  intro es hterm
  induction es with
  | nil => rfl
  | cons e' es ih => rw [List.foldl_cons, hstep s e' hterm]; exact ih

/-- Witness for claim C5: a COMPLETED record is unchanged by a further
start-execution then fail-execution event sequence. -/
theorem action_lifecycle_monotonic_witness :
    ActionStatus.isTerminal ActionStatus.COMPLETED = true ∧
    [LifecycleEvent.startExecution, LifecycleEvent.executionFailed].foldl
        ActionStatus.step ActionStatus.COMPLETED = ActionStatus.COMPLETED :=
  ⟨by decide,
    (action_lifecycle_monotonic ActionStatus.COMPLETED LifecycleEvent.startExecution).2
      [LifecycleEvent.startExecution, LifecycleEvent.executionFailed] (by decide)⟩

/-- Claim C6: a pipeline run triggered while another run is executing is
rejected with a `pipelineBusy` signal carrying a machine-readable reason
code (never queued: the returned state is exactly the input state), and the
previously published Recommendation set is unchanged. -/
theorem pipeline_busy_rejection (s : CoordinatorState) (h : s.running = true) :
    triggerRun s = (TriggerResult.pipelineBusy "PIPELINE_BUSY", s) ∧
    (triggerRun s).2.published = s.published ∧
    ∃ code : String, (triggerRun s).1 = TriggerResult.pipelineBusy code := by
  refine ⟨by simp [triggerRun, h], by simp [triggerRun, h], "PIPELINE_BUSY", by simp [triggerRun, h]⟩

/-- Witness for claim C6: triggering while a run over a one-element published
set is in flight returns `pipelineBusy` and leaves the set unchanged. -/
theorem pipeline_busy_rejection_witness :
    triggerRun
      ⟨true, [⟨"IPH001", RiskLevel.CRITICAL, 90, RecommendedAction.REORDER_IMMEDIATELY⟩]⟩ =
      (TriggerResult.pipelineBusy "PIPELINE_BUSY",
        ⟨true, [⟨"IPH001", RiskLevel.CRITICAL, 90, RecommendedAction.REORDER_IMMEDIATELY⟩]⟩) :=
  (pipeline_busy_rejection
    ⟨true, [⟨"IPH001", RiskLevel.CRITICAL, 90, RecommendedAction.REORDER_IMMEDIATELY⟩]⟩
    rfl).1

/-- Counterexample for claim C8: under the default ranked view two
recommendations with equal impact_score are NOT reordered by risk severity —
a SAFE row listed first stays before a CRITICAL row with the same score —
and swapping the input order swaps the displayed order, so the view is not a
function of the recommendation set alone. -/
theorem ranked_view_tiebreak_counterexample :
    sortedRecommendations
        [⟨"A", RiskLevel.SAFE, 50, RecommendedAction.MONITOR⟩,
         ⟨"B", RiskLevel.CRITICAL, 50, RecommendedAction.REORDER_IMMEDIATELY⟩] =
      [⟨"A", RiskLevel.SAFE, 50, RecommendedAction.MONITOR⟩,
       ⟨"B", RiskLevel.CRITICAL, 50, RecommendedAction.REORDER_IMMEDIATELY⟩] ∧
    sortedRecommendations
        [⟨"B", RiskLevel.CRITICAL, 50, RecommendedAction.REORDER_IMMEDIATELY⟩,
         ⟨"A", RiskLevel.SAFE, 50, RecommendedAction.MONITOR⟩] =
      [⟨"B", RiskLevel.CRITICAL, 50, RecommendedAction.REORDER_IMMEDIATELY⟩,
       ⟨"A", RiskLevel.SAFE, 50, RecommendedAction.MONITOR⟩] ∧
    ([⟨"A", RiskLevel.SAFE, 50, RecommendedAction.MONITOR⟩,
      ⟨"B", RiskLevel.CRITICAL, 50, RecommendedAction.REORDER_IMMEDIATELY⟩] :
        List Recommendation) ≠
      [⟨"B", RiskLevel.CRITICAL, 50, RecommendedAction.REORDER_IMMEDIATELY⟩,
       ⟨"A", RiskLevel.SAFE, 50, RecommendedAction.MONITOR⟩] := by
  refine ⟨?_, ?_, ?_⟩ <;> decide

/-- Claim C8 as amended: the ranked view under the default sort state sorts
only by the selected single key — impact_score descending — as a stable
sort: the displayed order is a permutation of the input, non-increasing in
impact_score, and an input already in such an order (equal scores in any
input order) is displayed unchanged; no risk-severity or sku_id tie-break
is applied. -/
theorem ranked_view_default_sort (recommendations : List Recommendation) :
    (sortedRecommendations recommendations).Perm recommendations ∧
    (sortedRecommendations recommendations).Sorted impactDescLe ∧
    (recommendations.Sorted impactDescLe →
      sortedRecommendations recommendations = recommendations) :=
  ⟨List.perm_insertionSort impactDescLe recommendations,
   List.sorted_insertionSort impactDescLe recommendations,
   fun h => h.insertionSort_eq⟩

/-- Witness for claim C8 as amended: a list already ordered by descending
impact score is displayed unchanged. -/
theorem ranked_view_default_sort_witness :
    ([⟨"B", RiskLevel.CRITICAL, 60, RecommendedAction.REORDER_IMMEDIATELY⟩,
      ⟨"A", RiskLevel.SAFE, 50, RecommendedAction.MONITOR⟩] :
        List Recommendation).Sorted impactDescLe ∧
    sortedRecommendations
        [⟨"B", RiskLevel.CRITICAL, 60, RecommendedAction.REORDER_IMMEDIATELY⟩,
         ⟨"A", RiskLevel.SAFE, 50, RecommendedAction.MONITOR⟩] =
      [⟨"B", RiskLevel.CRITICAL, 60, RecommendedAction.REORDER_IMMEDIATELY⟩,
       ⟨"A", RiskLevel.SAFE, 50, RecommendedAction.MONITOR⟩] := by
  have hs : ([⟨"B", RiskLevel.CRITICAL, 60, RecommendedAction.REORDER_IMMEDIATELY⟩,
      ⟨"A", RiskLevel.SAFE, 50, RecommendedAction.MONITOR⟩] :
        List Recommendation).Sorted impactDescLe := by
    simp [List.sorted_cons, impactDescLe]
    norm_num
  exact ⟨hs, (ranked_view_default_sort _).2.2 hs⟩

/-- Claim C9: executing a DISMISS for a SKU writes nothing to the external
store, completes immediately, appends exactly one audit entry, leaves the
published Recommendations unchanged, and removes from the alerts view
exactly the entries of that SKU: every other SKU's alert entries are kept
unchanged and in order. -/
theorem dismiss_frame (skuId : String) (st : BackendState) (alerts : List Alert) :
    (executeDismiss skuId st).1 = ActionStatus.COMPLETED ∧
    (executeDismiss skuId st).2.storeWrites = st.storeWrites ∧
    (executeDismiss skuId st).2.auditLog =
      st.auditLog ++ [⟨skuId, ActionKind.DISMISS⟩] ∧
    (executeDismiss skuId st).2.recommendations = st.recommendations ∧
    (∀ a : Alert, a ∈ dismissAlerts skuId alerts ↔ a ∈ alerts ∧ a.sku_id ≠ skuId) ∧
    (∀ sk : String, sk ≠ skuId →
      (dismissAlerts skuId alerts).filter (fun a => a.sku_id == sk) =
        alerts.filter (fun a => a.sku_id == sk)) := by
  refine ⟨rfl, rfl, rfl, rfl, ?_, ?_⟩
  · intro a
    simp [dismissAlerts, List.mem_filter, bne_iff_ne]
  · intro sk hsk
    rw [dismissAlerts, List.filter_filter]
    apply List.filter_congr
    intro a _
    by_cases h : a.sku_id = sk
    · simp [h, bne_iff_ne, hsk]
    · simp [h]

/-- Witness for claim C9: dismissing IPH001 from a two-alert list keeps the
other SKU's entries exactly as filtered from the input. -/
theorem dismiss_frame_witness :
    ("SKU002" : String) ≠ "IPH001" ∧
    (dismissAlerts "IPH001"
        [⟨"IPH001", "iPhone", 1500, 5, 90⟩,
         ⟨"SKU002", "Widget", 100, 50, 10⟩]).filter
        (fun a => a.sku_id == "SKU002") =
      ([⟨"IPH001", "iPhone", 1500, 5, 90⟩,
        ⟨"SKU002", "Widget", 100, 50, 10⟩] : List Alert).filter
        (fun a => a.sku_id == "SKU002") := by
  refine ⟨by decide, ?_⟩
  exact (dismiss_frame "IPH001" ⟨0, [], []⟩
      [⟨"IPH001", "iPhone", 1500, 5, 90⟩,
       ⟨"SKU002", "Widget", 100, 50, 10⟩]).2.2.2.2.2 "SKU002" (by decide)

/-- Claim C10: a submission from the alerts view carries
`original_value = selling_price` exactly when the chosen action type is
PRICE_CHANGE; RESTOCK and DISMISS submissions carry no original_value, and
DISMISS additionally carries no value. -/
theorem alerts_submission_original_value (alert : Alert) (ty : ModalActionType)
    (v : ℚ) (skuId : String) :
    ((confirmActionBody alert ty v).original_value = some alert.selling_price ↔
      (confirmActionBody alert ty v).action_type = "PRICE_CHANGE") ∧
    ((confirmActionBody alert ty v).original_value.isSome = true ↔
      ty = ModalActionType.PRICE) ∧
    (ty = ModalActionType.RESTOCK →
      (confirmActionBody alert ty v).action_type = "RESTOCK" ∧
      (confirmActionBody alert ty v).original_value = none) ∧
    (ty = ModalActionType.PRICE →
      (confirmActionBody alert ty v).action_type = "PRICE_CHANGE" ∧
      (confirmActionBody alert ty v).original_value = some alert.selling_price) ∧
    (dismissActionBody skuId).action_type = "DISMISS" ∧
    (dismissActionBody skuId).original_value = none ∧
    (dismissActionBody skuId).value = none := by
  cases ty <;>
    simp [confirmActionBody, executeActionBody, dismissActionBody]

/-- Witness for claim C10: a concrete RESTOCK submission carries action type
RESTOCK and no original_value. -/
theorem alerts_submission_original_value_witness :
    (confirmActionBody ⟨"IPH001", "iPhone", 1500, 5, 90⟩
        ModalActionType.RESTOCK 150).action_type = "RESTOCK" ∧
    (confirmActionBody ⟨"IPH001", "iPhone", 1500, 5, 90⟩
        ModalActionType.RESTOCK 150).original_value = none :=
  (alerts_submission_original_value ⟨"IPH001", "iPhone", 1500, 5, 90⟩
    ModalActionType.RESTOCK 150 "SKU002").2.2.1 rfl

end ElSem3
